import Mathlib

/-!
Shallow embedding of src/assignment.py (class ParseAvailRequest): a hotel
availability request validator and priced-response builder.

Modelling conventions:
* An ElementTree node lookup (root.find) that can miss yields an outer
  Option; the node text (.text), which can itself be None, is an inner
  Option.
* Python exceptions are the PyError type: valError is ValueError (the only
  kind main catches), nameError models the NameError raised when an
  undefined module-level global (DEFAULT_LANGUAGE, ALLOWED_HOTEL_COUNT) is
  evaluated, and attrError models the AttributeError raised by calling
  .text or .get on a None result of find.
* Integers are Int / Nat (no overflow is relevant at these sizes); money
  values are exact rationals: the source uses Python floats, and the
  properties under study concern the exact pricing formula, not float
  rounding.
* datetime values produced by strptime with format day/month/year are Date
  records; datetime subtraction and comparison are modelled at day
  granularity through a rata-die conversion (a start date at midnight is
  at most today plus two days exactly when its day number is at most the
  day number of today plus 2, for every time of day, so day granularity is
  exact for the modelled comparison). Date texts that strptime rejects
  raise ValueError through the same caught path as the business rules and
  are not load-bearing for any property studied here, so date texts are
  modelled already parsed.
* AvailDestinations elements carry no data that the program reads, so a
  destination entry is modelled as Unit.
-/

namespace Assignment

/-- Result of datetime.strptime(text, "%d/%m/%Y"): a calendar date. -/
structure Date where
  day : Nat
  month : Nat
  year : Nat
  deriving DecidableEq

/-- Day number of a civil date (days since 1970-01-01, proleptic
Gregorian), mirroring how datetime subtraction counts days. -/
def Date.toRataDie (date : Date) : Int :=
  let y : Int := if date.month ≤ 2 then (date.year : Int) - 1 else (date.year : Int)
  let era : Int := (if 0 ≤ y then y else y - 399) / 400
  let yoe : Int := y - era * 400
  let m : Int := (date.month : Int)
  let doy : Int := (153 * (if 2 < m then m - 3 else m + 9) + 2) / 5 + (date.day : Int) - 1
  let doe : Int := yoe * 365 + yoe / 4 - yoe / 100 + doy
  era * 146097 + doe - 719468

/-- Models (end_date - start_date).days for strptime results (midnight
datetimes). -/
def stayNights (start_date end_date : Date) : Int :=
  end_date.toRataDie - start_date.toRataDie

/-- The Python exceptions the program can raise. -/
inductive PyError where
  /-- ValueError msg: raised by every business-rule validator and caught
  by main. -/
  | valError (msg : String)
  /-- NameError: an undefined module-level global was evaluated; not
  caught by main. -/
  | nameError (missingGlobal : String)
  /-- AttributeError: .text or .get called on None (a find miss); not
  caught by main. -/
  | attrError
  deriving DecidableEq

/-- The Parameter node: credentials are attributes read with .get, which
returns None when the attribute is absent. -/
structure Parameter where
  password : Option String
  username : Option String
  company_id : Option String
  deriving DecidableEq

/-- One Pax element; the age attribute text, already converted by int()
(pax.get("age", 0) defaults a missing attribute to 0). -/
structure Pax where
  age : Option Nat
  deriving DecidableEq

/-- One Paxes element (a room block) with its Pax children. -/
structure PaxesBlock where
  paxes : List Pax
  deriving DecidableEq

/-- The parsed XML document as the program reads it: each find target is
an outer Option (node presence); texts are inner Options. -/
structure AvailDoc where
  languageCode : Option (Option String)
  parameter : Option Parameter
  searchType : Option (Option String)
  availDestinations : List Unit
  startDate : Option Date
  endDate : Option Date
  optionsQuota : Option (Option Int)
  currency : Option (Option String)
  nationality : Option (Option String)
  market : Option (Option String)
  paxes : List PaxesBlock

-- Constants from ParseAvailRequest.__init__ (Python sets, modelled as
-- lists used only through membership).
def allowed_currencies : List String := ["EUR", "USD", "GBP"]
def allowed_nationalities : List String := ["US", "GB", "CA"]
def allowed_market : List String := ["US", "GB", "CA", "ES"]
def var_filters_cg : List String := ["en", "fr", "de", "es"]
def allowed_room_count : Nat := 5
def default_language : String := "en"
def default_currency : String := "EUR"
def default_nationality : String := "US"
def default_market : String := "ES"
def allowed_hotel_count : Nat := 10
def options_quota_default : Int := 20
def max_child_age : Nat := 5
def allowed_room_guest_count : Nat := 5
def price_net : ℚ := 13242 / 100
def price_currency : String := "USD"

/-- validate_destination. When SearchType is Multiple and the count
exceeds the limit, the error message f-string evaluates the module global
ALLOWED_HOTEL_COUNT, which is undefined, so a NameError is raised before
the ValueError can be constructed. -/
def validate_destination (search_type : Option String)
    (avail_destinations : List Unit) : Except PyError Unit :=
  if search_type = some "Single" ∧ avail_destinations.length ≠ 1 then
    .error (.valError "If SearchType is \x27Single\x27, there must be exactly one destination.")
  else if search_type = some "Multiple" ∧ avail_destinations.length > allowed_hotel_count then
    .error (.nameError "ALLOWED_HOTEL_COUNT")
  else .ok ()

/-- Python truthiness of a .get result: None and the empty string are
falsy. -/
def truthy : Option String → Bool
  | none => false
  | some s => s ≠ ""

/-- validate_user. -/
def validate_user (password username company_id : Option String) :
    Except PyError Unit :=
  if ¬ (truthy password ∧ truthy username ∧ truthy company_id) then
    .error (.valError "Missing required parameters: password, username, or CompanyID.")
  else .ok ()

/-- validate_date. Defined in the source without a self parameter and,
as proved below, never invoked by parse; today is the day number of the
current date (datetime.today() at day granularity). -/
def validate_date (today : Int) (start_date end_date : Date) :
    Except PyError Unit :=
  if start_date.toRataDie ≤ today + 2 then
    .error (.valError "Start date must be at least 2 days after today.")
  else if stayNights start_date end_date < 3 then
    .error (.valError "Stay duration must be at least 3 nights.")
  else .ok ()

/-- The reassignment at the start of validate_options_quota: a falsy
value (Python None, modelled as Option.none, or 0) is replaced by the
default 20. -/
def resolve_options_quota (options_quota : Option Int) : Int :=
  match options_quota with
  | none => options_quota_default
  | some n => if n = 0 then options_quota_default else n

/-- validate_options_quota. -/
def validate_options_quota (options_quota : Option Int) :
    Except PyError Unit :=
  if resolve_options_quota options_quota > 50 then
    .error (.valError "OptionsQuota must be no greater than 50.")
  else .ok ()

/-- validate_language_code; language_code is str or None (an f-string
renders None as the text None). -/
def validate_language_code (language_code : Option String) :
    Except PyError Unit :=
  match language_code with
  | some l =>
    if l ∈ var_filters_cg then .ok ()
    else .error (.valError ("Invalid language code: " ++ l))
  | none => .error (.valError "Invalid language code: None")

/-- calculate_selling_price. -/
def calculate_selling_price (net_price markup_percentage : ℚ) : ℚ :=
  net_price * (1 + markup_percentage / 100)

/-- validate_room_count. -/
def validate_room_count (count : Nat) : Except PyError Unit :=
  if count > allowed_room_count then
    .error (.valError "Number of rooms cannot exceed 5.")
  else .ok ()

/-- One entry appended to pax_data: age defaulted to 0 when the attribute
is absent, type classified against max_child_age. -/
structure PaxRec where
  age : Nat
  type : String
  deriving DecidableEq

def paxEntry (p : Pax) : PaxRec :=
  let age := p.age.getD 0
  { age := age, type := if age ≤ max_child_age then "Child" else "Adult" }

/-- The room loop of parse. The source initialises pax_data once before
the loop (the per-block pax_list is created but never used), so the
occupancy check compares the count accumulated across all rooms so far
against the per-room limit; the child and adult counts are computed and
then discarded. -/
def roomLoop : List PaxesBlock → List PaxRec → Except PyError (List PaxRec)
  | [], pax_data => .ok pax_data
  | block :: rest, pax_data =>
    let pax_data2 := pax_data ++ block.paxes.map paxEntry
    if pax_data2.length > allowed_room_guest_count then
      .error (.valError "Number of passengers in a room cannot exceed 5.")
    else
      let _child_count := (pax_data2.filter (fun p => p.type == "Child")).length
      let _adult_count := (pax_data2.filter (fun p => p.type == "Adult")).length
      roomLoop rest pax_data2

/-- Currency resolution (parse, after the Currency .text read): an
allow-list member passes through, anything else (including None text)
becomes the default. -/
def resolve_currency (t : Option String) : String :=
  match t with
  | some c => if c ∈ allowed_currencies then c else default_currency
  | none => default_currency

/-- Nationality resolution, same shape as currency. -/
def resolve_nationality (t : Option String) : String :=
  match t with
  | some n => if n ∈ allowed_nationalities then n else default_nationality
  | none => default_nationality

/-- Market resolution: the default applies only when the Market node is
absent; a present node has its text passed through with no allow-list
check (allowed_market is never consulted). -/
def resolve_market (m : Option (Option String)) : Option String :=
  match m with
  | some t => t
  | none => some default_market

/-- The dict returned by parse. options_quota is the raw extracted value
(the default substitution inside validate_options_quota mutates only a
local); market can be None when a Market node is present with empty
text. -/
structure ParsedData where
  language_code : Option String
  options_quota : Option Int
  password : Option String
  username : Option String
  company_id : Option String
  search_type : Option String
  start_date : Date
  end_date : Date
  currency : String
  nationality : String
  market : Option String
  avail_destinations : List Unit
  paxes : List PaxesBlock

/-- parse, statement by statement in source order. Note that the parsed
start and end dates are never passed to validate_date: no date rule is
enforced. -/
def parse (doc : AvailDoc) : Except PyError ParsedData :=
  match doc.languageCode with
  | none => .error (.nameError "DEFAULT_LANGUAGE")
  | some language_code =>
  match validate_language_code language_code with
  | .error e => .error e
  | .ok _ =>
  match doc.parameter with
  | none => .error .attrError
  | some parameters =>
  match validate_user parameters.password parameters.username parameters.company_id with
  | .error e => .error e
  | .ok _ =>
  match doc.searchType with
  | none => .error .attrError
  | some search_type =>
  match validate_destination search_type doc.availDestinations with
  | .error e => .error e
  | .ok _ =>
  match doc.startDate with
  | none => .error .attrError
  | some start_date =>
  match doc.endDate with
  | none => .error .attrError
  | some end_date =>
  match doc.optionsQuota with
  | none => .error .attrError
  | some options_quota =>
  match validate_options_quota options_quota with
  | .error e => .error e
  | .ok _ =>
  match doc.currency with
  | none => .error .attrError
  | some currency_text =>
  match doc.nationality with
  | none => .error .attrError
  | some nationality_text =>
  match validate_room_count doc.paxes.length with
  | .error e => .error e
  | .ok _ =>
  match roomLoop doc.paxes [] with
  | .error e => .error e
  | .ok _pax_data =>
  .ok {
    language_code := language_code
    options_quota := options_quota
    password := parameters.password
    username := parameters.username
    company_id := parameters.company_id
    search_type := search_type
    start_date := start_date
    end_date := end_date
    currency := resolve_currency currency_text
    nationality := resolve_nationality nationality_text
    market := resolve_market doc.market
    avail_destinations := doc.availDestinations
    paxes := doc.paxes }

/-- The price block of one response item. -/
structure PriceBlock where
  minimumSellingPrice : Option ℚ
  currency : String
  net : ℚ
  selling_price : ℚ
  selling_currency : String
  markup : ℚ
  exchange_rate : ℚ
  deriving DecidableEq

/-- One element of the generated response list. -/
structure ResponseItem where
  id : String
  hotelCodeSupplier : String
  market : Option String
  price : PriceBlock
  deriving DecidableEq

/-- The response object built for one destination with the running id. -/
def responseItem (data : ParsedData) (id : Nat) : ResponseItem :=
  let markup_percentage : ℚ := 32 / 10
  { id := "A#" ++ toString id
    hotelCodeSupplier := "39971881"
    market := data.market
    price := {
      minimumSellingPrice := none
      currency := price_currency
      net := price_net
      selling_price := calculate_selling_price price_net markup_percentage
      selling_currency := data.currency
      markup := markup_percentage
      exchange_rate := 1 } }

/-- generate_response: one item per destination, id starting at 1 and
incremented per iteration. The JSON serialisation step is a faithful
rendering of this list and is not modelled further. -/
def generate_response (data : ParsedData) : List ResponseItem :=
  (List.range data.avail_destinations.length).map
    (fun i => responseItem data (i + 1))

/-- What main returns: either the serialised response list or the error
JSON object built from a caught ValueError. -/
inductive MainResult where
  | response (items : List ResponseItem)
  | errorJson (msg : String)
  deriving DecidableEq

/-- main: catches only ValueError; every other exception propagates to
the caller (modelled as a remaining .error). -/
def main (doc : AvailDoc) : Except PyError MainResult :=
  match parse doc with
  | .ok data => .ok (.response (generate_response data))
  | .error (.valError msg) => .ok (.errorJson msg)
  | .error e => .error e

/-- True when parse succeeds. -/
def ParseOk (doc : AvailDoc) : Bool :=
  match parse doc with
  | .ok _ => true
  | .error _ => false

/-- Two room lists have the same shape when they have the same number of
blocks with pointwise equal occupant counts. -/
def sameShape : List PaxesBlock → List PaxesBlock → Bool
  | [], [] => true
  | a :: as, b :: bs => a.paxes.length == b.paxes.length && sameShape as bs
  | _, _ => false

-- The sample request embedded at the bottom of the source file.

def sampleStart : Date := { day := 14, month := 10, year := 2024 }
def sampleEnd : Date := { day := 16, month := 10, year := 2024 }

def samplePax (a : Nat) : Pax := { age := some a }

/-- The Parameter node of the sample document. -/
def sampleParameter : Parameter :=
  { password := some "XXXXXXXXXX"
    username := some "YYYYYYYYY"
    company_id := some "123456" }

/-- The xml_request document at module level in the source. -/
def sampleDoc : AvailDoc :=
  { languageCode := some (some "en")
    parameter := some sampleParameter
    searchType := some (some "Multiple")
    availDestinations := [(), (), ()]
    startDate := some sampleStart
    endDate := some sampleEnd
    optionsQuota := some (some 20)
    currency := some (some "USD")
    nationality := some (some "US")
    market := none
    paxes := [ { paxes := [samplePax 10, samplePax 3] },
               { paxes := [samplePax 35, samplePax 2] } ] }

/-! Helper predicates for the validation stages of parse, and inversion
lemmas used by several properties below. -/

/-- parse succeeds exactly when it returns some data. -/
theorem ParseOk_iff_exists (doc : AvailDoc) :
    ParseOk doc = true ↔ ∃ data, parse doc = .ok data := by
  unfold ParseOk
  cases hp : parse doc <;> simp

/-- The language step of parse runs without raising. -/
def langOk (doc : AvailDoc) : Prop :=
  ∃ lc, doc.languageCode = some lc ∧ validate_language_code lc = .ok ()

/-- The credentials step of parse runs without raising. -/
def credOk (doc : AvailDoc) : Prop :=
  ∃ p, doc.parameter = some p ∧
    validate_user p.password p.username p.company_id = .ok ()

/-- The search-type and destination step of parse runs without raising. -/
def destOk (doc : AvailDoc) : Prop :=
  ∃ st, doc.searchType = some st ∧
    validate_destination st doc.availDestinations = .ok ()

/-- The options-quota step of parse runs without raising. -/
def quotaOk (doc : AvailDoc) : Prop :=
  ∃ oq, doc.optionsQuota = some oq ∧ validate_options_quota oq = .ok ()

/-- Everything parse checks on its way to a successful return. -/
def parseConditions (doc : AvailDoc) : Prop :=
  langOk doc ∧ credOk doc ∧ destOk doc
  ∧ (∃ sd, doc.startDate = some sd) ∧ (∃ ed, doc.endDate = some ed)
  ∧ quotaOk doc
  ∧ (∃ ct, doc.currency = some ct) ∧ (∃ nt, doc.nationality = some nt)
  ∧ validate_room_count doc.paxes.length = .ok ()
  ∧ (∃ pd, roomLoop doc.paxes [] = .ok pd)

/-- Inversion of a successful parse: every stage passed and each returned
field is the resolution of the corresponding document field. -/
theorem parse_ok_inv {doc : AvailDoc} {data : ParsedData}
    (h : parse doc = .ok data) :
    (∃ lc, doc.languageCode = some lc ∧ validate_language_code lc = .ok () ∧
      data.language_code = lc)
    ∧ (∃ p, doc.parameter = some p ∧
        validate_user p.password p.username p.company_id = .ok ())
    ∧ (∃ st, doc.searchType = some st ∧
        validate_destination st doc.availDestinations = .ok () ∧
        data.search_type = st)
    ∧ doc.startDate = some data.start_date
    ∧ doc.endDate = some data.end_date
    ∧ (∃ oq, doc.optionsQuota = some oq ∧ validate_options_quota oq = .ok () ∧
        data.options_quota = oq)
    ∧ (∃ ct, doc.currency = some ct ∧ data.currency = resolve_currency ct)
    ∧ (∃ nt, doc.nationality = some nt ∧ data.nationality = resolve_nationality nt)
    ∧ data.market = resolve_market doc.market
    ∧ validate_room_count doc.paxes.length = .ok ()
    ∧ (∃ pd, roomLoop doc.paxes [] = .ok pd)
    ∧ data.avail_destinations = doc.availDestinations := by
  unfold parse at h
  rcases hL : doc.languageCode with _ | lc <;> simp only [hL] at h
  · exact Except.noConfusion h
  rcases hV : validate_language_code lc with e | u <;> simp only [hV] at h
  · exact Except.noConfusion h
  rcases hP : doc.parameter with _ | params <;> simp only [hP] at h
  · exact Except.noConfusion h
  rcases hU : validate_user params.password params.username params.company_id with e | u2 <;>
    simp only [hU] at h
  · exact Except.noConfusion h
  rcases hS : doc.searchType with _ | st <;> simp only [hS] at h
  · exact Except.noConfusion h
  rcases hD : validate_destination st doc.availDestinations with e | u3 <;>
    simp only [hD] at h
  · exact Except.noConfusion h
  rcases hSd : doc.startDate with _ | sd <;> simp only [hSd] at h
  · exact Except.noConfusion h
  rcases hEd : doc.endDate with _ | ed <;> simp only [hEd] at h
  · exact Except.noConfusion h
  rcases hOq : doc.optionsQuota with _ | oq <;> simp only [hOq] at h
  · exact Except.noConfusion h
  rcases hVq : validate_options_quota oq with e | u4 <;> simp only [hVq] at h
  · exact Except.noConfusion h
  rcases hC : doc.currency with _ | ct <;> simp only [hC] at h
  · exact Except.noConfusion h
  rcases hN : doc.nationality with _ | nt <;> simp only [hN] at h
  · exact Except.noConfusion h
  rcases hRc : validate_room_count doc.paxes.length with e | u5 <;> simp only [hRc] at h
  · exact Except.noConfusion h
  rcases hRl : roomLoop doc.paxes [] with e | pd <;> simp only [hRl] at h
  · exact Except.noConfusion h
  injection h with h
  subst h
  exact ⟨⟨lc, rfl, hV, rfl⟩, ⟨params, rfl, hU⟩, ⟨st, rfl, hD, rfl⟩, rfl, rfl,
    ⟨oq, rfl, hVq, rfl⟩, ⟨ct, rfl, rfl⟩, ⟨nt, rfl, rfl⟩, rfl, rfl, ⟨pd, rfl⟩, rfl⟩

/-- parse succeeds exactly when every validation stage passes. -/
theorem parse_isOk_iff (doc : AvailDoc) :
    ParseOk doc = true ↔ parseConditions doc := by
  constructor
  · intro h
    rw [ParseOk_iff_exists] at h
    obtain ⟨data, h⟩ := h
    obtain ⟨⟨lc, hL, hV, _⟩, hcred, ⟨st, hS, hD, _⟩, hSd, hEd, ⟨oq, hOq, hVq, _⟩,
      ⟨ct, hC, _⟩, ⟨nt, hN, _⟩, _, hRc, hRl, _⟩ := parse_ok_inv h
    exact ⟨⟨lc, hL, hV⟩, hcred, ⟨st, hS, hD⟩, ⟨_, hSd⟩, ⟨_, hEd⟩, ⟨oq, hOq, hVq⟩,
      ⟨ct, hC⟩, ⟨nt, hN⟩, hRc, hRl⟩
  · rintro ⟨⟨lc, hL, hV⟩, ⟨params, hP, hU⟩, ⟨st, hS, hD⟩, ⟨sd, hSd⟩, ⟨ed, hEd⟩,
      ⟨oq, hOq, hVq⟩, ⟨ct, hC⟩, ⟨nt, hN⟩, hRc, ⟨pd, hRl⟩⟩
    simp only [ParseOk, parse, hL, hV, hP, hU, hS, hD, hSd, hEd, hOq, hVq, hC, hN,
      hRc, hRl]

/-- Lists of room blocks with the same shape have the same length. -/
theorem sameShape_length : ∀ bs bs' : List PaxesBlock,
    sameShape bs bs' = true → bs.length = bs'.length := by
  intro bs
  induction bs with
  | nil =>
    intro bs' h
    cases bs' with
    | nil => rfl
    | cons b t => simp [sameShape] at h
  | cons a as ih =>
    intro bs' h
    cases bs' with
    | nil => simp [sameShape] at h
    | cons b t =>
      simp only [sameShape, Bool.and_eq_true] at h
      simp [ih t h.2]

/-- Whether the room loop succeeds depends only on the block shapes and
the length of the accumulator, never on occupant ages. -/
theorem roomLoop_ok_shape : ∀ (bs bs' : List PaxesBlock) (acc acc' : List PaxRec),
    sameShape bs bs' = true → acc.length = acc'.length →
    ((∃ pd, roomLoop bs acc = .ok pd) ↔ ∃ pd, roomLoop bs' acc' = .ok pd) := by
  intro bs
  induction bs with
  | nil =>
    intro bs' acc acc' hs _
    cases bs' with
    | nil => simp [roomLoop]
    | cons b t => simp [sameShape] at hs
  | cons a as ih =>
    intro bs' acc acc' hs hl
    cases bs' with
    | nil => simp [sameShape] at hs
    | cons b t =>
      simp only [sameShape, Bool.and_eq_true, beq_iff_eq] at hs
      obtain ⟨hlen, hs'⟩ := hs
      have hlen2 : (acc ++ a.paxes.map paxEntry).length =
          (acc' ++ b.paxes.map paxEntry).length := by
        simp [hl, hlen]
      simp only [roomLoop]
      rw [← hlen2]
      by_cases hgt : (acc ++ a.paxes.map paxEntry).length > allowed_room_guest_count
      · rw [if_pos hgt, if_pos hgt]
      · rw [if_neg hgt, if_neg hgt]
        exact ih t _ _ hs' hlen2

/-- The resolved currency always lands in the allow-list. -/
theorem resolve_currency_mem (t : Option String) :
    resolve_currency t ∈ allowed_currencies := by
  rcases t with _ | c
  · decide
  · simp only [resolve_currency]
    by_cases h : c ∈ allowed_currencies
    · rwa [if_pos h]
    · rw [if_neg h]; decide

/-- The resolved nationality always lands in the allow-list. -/
theorem resolve_nationality_mem (t : Option String) :
    resolve_nationality t ∈ allowed_nationalities := by
  rcases t with _ | n
  · decide
  · simp only [resolve_nationality]
    by_cases h : n ∈ allowed_nationalities
    · rwa [if_pos h]
    · rw [if_neg h]; decide

/-! Concrete documents used to evaluate the program at specific inputs. -/

/-- The data parse returns for the sample document. -/
def sampleParsed : ParsedData :=
  { language_code := some "en"
    options_quota := some 20
    password := some "XXXXXXXXXX"
    username := some "YYYYYYYYY"
    company_id := some "123456"
    search_type := some "Multiple"
    start_date := sampleStart
    end_date := sampleEnd
    currency := "USD"
    nationality := "US"
    market := some "ES"
    avail_destinations := [(), (), ()]
    paxes := sampleDoc.paxes }

/-- The sample document with exactly 10 destination entries. -/
def tenDoc : AvailDoc :=
  { sampleDoc with availDestinations := List.replicate 10 () }

/-- The sample document with 11 destination entries. -/
def elevenDoc : AvailDoc :=
  { sampleDoc with availDestinations := List.replicate 11 () }

/-- The sample document with a Market node whose text is outside the
market allow-list. -/
def c3doc : AvailDoc := { sampleDoc with market := some (some "ZZ") }

/-- The sample document without a languageCode node. -/
def c5missingDoc : AvailDoc := { sampleDoc with languageCode := none }

/-- The sample document with a languageCode outside the allow-list. -/
def c5invalidDoc : AvailDoc :=
  { sampleDoc with languageCode := some (some "zz") }

/-- Two rooms of three occupants each: every room is within the per-room
limit of 5, while the total across rooms is 6. -/
def c6doc : AvailDoc :=
  { sampleDoc with
      paxes := [ { paxes := [samplePax 30, samplePax 31, samplePax 32] },
                 { paxes := [samplePax 33, samplePax 34, samplePax 35] } ] }

/-- One room of six occupants: over the per-room limit. -/
def room6Doc : AvailDoc :=
  { sampleDoc with
      paxes := [ { paxes := [samplePax 30, samplePax 31, samplePax 32,
                             samplePax 33, samplePax 34, samplePax 35] } ] }

/-- One room holding only children (ages 2 and 3), no adult. -/
def childOnlyDoc : AvailDoc :=
  { sampleDoc with paxes := [ { paxes := [samplePax 2, samplePax 3] } ] }

/-! The ten properties. -/

/-- C1: the two date rules exist in validate_date exactly as stated (start
date at least 2 days after today, stay at least 3 nights) and reject the
sample dates for every possible value of today, yet parse never calls
validate_date, so the sample request of the source module (stay of 2
nights, start 14/10/2024) is never rejected on dates: main reaches
response building and returns 3 priced offers. -/
theorem c1_date_rules_unenforced :
    (∀ today : Int, ∃ msg,
      validate_date today sampleStart sampleEnd = .error (.valError msg))
    ∧ stayNights sampleStart sampleEnd = 2
    ∧ (∃ items, main sampleDoc = .ok (.response items) ∧ items.length = 3) := by
  refine ⟨?_, by decide, ⟨_, rfl, rfl⟩⟩
  intro today
  by_cases h : sampleStart.toRataDie ≤ today + 2
  · refine ⟨"Start date must be at least 2 days after today.", ?_⟩
    unfold validate_date
    rw [if_pos h]
  · refine ⟨"Stay duration must be at least 3 nights.", ?_⟩
    unfold validate_date
    rw [if_neg h, if_pos (show stayNights sampleStart sampleEnd < 3 by decide)]

/-- C2: with searchType Single, validation succeeds exactly when one
destination is present and otherwise raises the destination-count
ValueError; with searchType Multiple, up to 10 destinations pass, but a
count over 10 raises a NameError (the undefined global
ALLOWED_HOTEL_COUNT inside the error f-string) instead of a ValueError,
so an 11-destination request escapes main uncaught rather than producing
the validation-error JSON. -/
theorem c2_destination_count :
    (∀ ds : List Unit,
      validate_destination (some "Single") ds = .ok () ↔ ds.length = 1)
    ∧ (∀ ds : List Unit, ds.length ≠ 1 →
        validate_destination (some "Single") ds =
          .error (.valError "If SearchType is \x27Single\x27, there must be exactly one destination."))
    ∧ (∀ ds : List Unit, ds.length ≤ allowed_hotel_count →
        validate_destination (some "Multiple") ds = .ok ())
    ∧ (∀ ds : List Unit, allowed_hotel_count < ds.length →
        validate_destination (some "Multiple") ds =
          .error (.nameError "ALLOWED_HOTEL_COUNT"))
    ∧ (∃ items, main tenDoc = .ok (.response items) ∧ items.length = 10)
    ∧ main elevenDoc = .error (.nameError "ALLOWED_HOTEL_COUNT") := by
  refine ⟨?_, ?_, ?_, ?_, ⟨_, rfl, rfl⟩, rfl⟩
  · intro ds
    by_cases hl : ds.length = 1 <;> simp [validate_destination, hl]
  · intro ds hl
    simp [validate_destination, hl]
  · intro ds hle
    unfold validate_destination
    rw [if_neg (by simp), if_neg (fun hc => (Nat.not_lt.mpr hle) hc.2)]
  · intro ds hgt
    unfold validate_destination
    rw [if_neg (by simp),
      if_pos (show some "Multiple" = some "Multiple" ∧
        ds.length > allowed_hotel_count from ⟨rfl, hgt⟩)]

/-- C2 witness: the destination-count rules evaluated at concrete
destination lists of sizes 0, 2, 10 and 11. -/
theorem c2_destination_count_witness :
    validate_destination (some "Single") [] =
      .error (.valError "If SearchType is \x27Single\x27, there must be exactly one destination.")
    ∧ validate_destination (some "Single") [(), ()] =
      .error (.valError "If SearchType is \x27Single\x27, there must be exactly one destination.")
    ∧ validate_destination (some "Multiple") (List.replicate 10 ()) = .ok ()
    ∧ validate_destination (some "Multiple") (List.replicate 11 ()) =
      .error (.nameError "ALLOWED_HOTEL_COUNT") :=
  ⟨c2_destination_count.2.1 [] (by decide),
   c2_destination_count.2.1 [(), ()] (by decide),
   c2_destination_count.2.2.1 (List.replicate 10 ()) (by decide),
   c2_destination_count.2.2.2.1 (List.replicate 11 ()) (by decide)⟩

/-- C3 counterexample: a present Market node with text ZZ, outside the
market allow-list, is passed through unchanged: parse succeeds and the
resolved market is ZZ, so the market field is not always in the
allow-list and an invalid supplied market is not replaced by the
default. -/
theorem c3_market_passthrough_counterexample :
    ∃ data, parse c3doc = .ok data ∧ data.market = some "ZZ" ∧
      "ZZ" ∉ allowed_market :=
  ⟨_, rfl, rfl, by decide⟩

/-- C3 amended: after resolution, currency and nationality are always in
their allow-lists, with values inside the allow-list passed through and
invalid or empty values silently replaced by the defaults; market is
replaced by the default only when the Market node is absent, and any
present market text (inside the allow-list or not) is passed through
unchanged. -/
theorem c3_resolution_amended :
    ∀ (doc : AvailDoc) (data : ParsedData), parse doc = .ok data →
    data.currency ∈ allowed_currencies
    ∧ data.nationality ∈ allowed_nationalities
    ∧ (∀ c, doc.currency = some (some c) → c ∈ allowed_currencies →
        data.currency = c)
    ∧ (∀ c, doc.currency = some (some c) → c ∉ allowed_currencies →
        data.currency = default_currency)
    ∧ (doc.currency = some none → data.currency = default_currency)
    ∧ (∀ n, doc.nationality = some (some n) → n ∈ allowed_nationalities →
        data.nationality = n)
    ∧ (∀ n, doc.nationality = some (some n) → n ∉ allowed_nationalities →
        data.nationality = default_nationality)
    ∧ (doc.nationality = some none → data.nationality = default_nationality)
    ∧ (doc.market = none → data.market = some default_market)
    ∧ (∀ t, doc.market = some t → data.market = t) := by
  intro doc data h
  obtain ⟨_, _, _, _, _, _, ⟨ct, hC, hcur⟩, ⟨nt, hN, hnat⟩, hM, _, _, _⟩ :=
    parse_ok_inv h
  refine ⟨hcur ▸ resolve_currency_mem ct, hnat ▸ resolve_nationality_mem nt,
    ?_, ?_, ?_, ?_, ?_, ?_, ?_, ?_⟩
  · intro c hdc hmem
    rw [hdc] at hC
    injection hC with hC
    rw [hcur, ← hC]
    simp only [resolve_currency]
    rw [if_pos hmem]
  · intro c hdc hmem
    rw [hdc] at hC
    injection hC with hC
    rw [hcur, ← hC]
    simp only [resolve_currency]
    rw [if_neg hmem]
  · intro hdc
    rw [hdc] at hC
    injection hC with hC
    rw [hcur, ← hC]
    rfl
  · intro n hdn hmem
    rw [hdn] at hN
    injection hN with hN
    rw [hnat, ← hN]
    simp only [resolve_nationality]
    rw [if_pos hmem]
  · intro n hdn hmem
    rw [hdn] at hN
    injection hN with hN
    rw [hnat, ← hN]
    simp only [resolve_nationality]
    rw [if_neg hmem]
  · intro hdn
    rw [hdn] at hN
    injection hN with hN
    rw [hnat, ← hN]
    rfl
  · intro hm
    rw [hM, hm]
    rfl
  · intro t hm
    rw [hM, hm]
    rfl

/-- C3 amended witness: the amended resolution rules evaluated on the
sample document (currency USD valid, nationality US valid, market node
absent). -/
theorem c3_resolution_amended_witness :
    sampleParsed.currency ∈ allowed_currencies
    ∧ sampleParsed.currency = "USD"
    ∧ sampleParsed.market = some default_market :=
  ⟨(c3_resolution_amended sampleDoc sampleParsed rfl).1,
   (c3_resolution_amended sampleDoc sampleParsed rfl).2.2.1 "USD" rfl (by decide),
   (c3_resolution_amended sampleDoc sampleParsed rfl).2.2.2.2.2.2.2.2.1 rfl⟩

/-- C4: an absent or zero optionsQuota resolves to the default 20 and
passes validation; a resolved value over 50 fails with the quota
ValueError; exactly 50 passes; and on every successful parse the
resolved quota of the returned record is at most 50. -/
theorem c4_options_quota :
    resolve_options_quota none = 20
    ∧ resolve_options_quota (some 0) = 20
    ∧ validate_options_quota none = .ok ()
    ∧ validate_options_quota (some 0) = .ok ()
    ∧ (∀ n : Int, 50 < n →
        validate_options_quota (some n) =
          .error (.valError "OptionsQuota must be no greater than 50."))
    ∧ validate_options_quota (some 50) = .ok ()
    ∧ (∀ q : Option Int, validate_options_quota q = .ok () →
        resolve_options_quota q ≤ 50)
    ∧ (∀ (doc : AvailDoc) (data : ParsedData), parse doc = .ok data →
        resolve_options_quota data.options_quota ≤ 50) := by
  have h7 : ∀ q : Option Int, validate_options_quota q = .ok () →
      resolve_options_quota q ≤ 50 := by
    intro q h
    unfold validate_options_quota at h
    by_cases hgt : resolve_options_quota q > 50
    · rw [if_pos hgt] at h
      exact Except.noConfusion h
    · omega
  refine ⟨rfl, rfl, rfl, rfl, ?_, rfl, h7, ?_⟩
  · intro n hn
    have hres : resolve_options_quota (some n) = n := by
      simp only [resolve_options_quota]
      rw [if_neg (by omega : ¬ n = 0)]
    unfold validate_options_quota
    rw [hres, if_pos hn]
  · intro doc data h
    obtain ⟨_, _, _, _, _, ⟨oq, hOq, hVq, hdq⟩, _, _, _, _, _, _⟩ :=
      parse_ok_inv h
    rw [hdq]
    exact h7 oq hVq

/-- C4 witness: quota rules evaluated at 51, at 20, and at the parse of
the sample document. -/
theorem c4_options_quota_witness :
    validate_options_quota (some 51) =
      .error (.valError "OptionsQuota must be no greater than 50.")
    ∧ resolve_options_quota (some 20) ≤ 50
    ∧ resolve_options_quota sampleParsed.options_quota ≤ 50 :=
  ⟨c4_options_quota.2.2.2.2.1 51 (by omega),
   c4_options_quota.2.2.2.2.2.2.1 (some 20) rfl,
   c4_options_quota.2.2.2.2.2.2.2 sampleDoc sampleParsed rfl⟩

/-- C5: a present languageCode outside the allow-list always fails parse
with the invalid-language ValueError (surfaced by main as the error
JSON), and the stated default is never applied to an invalid value; but
when the languageCode node is absent, instead of applying the default,
the code evaluates the undefined global DEFAULT_LANGUAGE, so parse
raises a NameError that main does not catch. -/
theorem c5_language_code :
    (∀ (doc : AvailDoc) (lc : String), doc.languageCode = some (some lc) →
      lc ∉ var_filters_cg →
      parse doc = .error (.valError ("Invalid language code: " ++ lc))
      ∧ main doc = .ok (.errorJson ("Invalid language code: " ++ lc)))
    ∧ (∀ doc : AvailDoc, doc.languageCode = none →
      parse doc = .error (.nameError "DEFAULT_LANGUAGE")
      ∧ main doc = .error (.nameError "DEFAULT_LANGUAGE")) := by
  constructor
  · intro doc lc hdoc hmem
    have hv : validate_language_code (some lc) =
        .error (.valError ("Invalid language code: " ++ lc)) := by
      simp only [validate_language_code]
      rw [if_neg hmem]
    have hp : parse doc = .error (.valError ("Invalid language code: " ++ lc)) := by
      simp only [parse, hdoc, hv]
    exact ⟨hp, by simp only [main, hp]⟩
  · intro doc hdoc
    have hp : parse doc = .error (.nameError "DEFAULT_LANGUAGE") := by
      simp only [parse, hdoc]
    exact ⟨hp, by simp only [main, hp]⟩

/-- C5 witness: an invalid language and an absent language node on the
sample document. -/
theorem c5_language_code_witness :
    parse c5invalidDoc = .error (.valError "Invalid language code: zz")
    ∧ main c5missingDoc = .error (.nameError "DEFAULT_LANGUAGE") :=
  ⟨(c5_language_code.1 c5invalidDoc "zz" rfl (by decide)).1,
   (c5_language_code.2 c5missingDoc rfl).2⟩

/-- C6: the occupancy check compares the occupant count accumulated
across all rooms so far (pax_data is never reset per room) against the
per-room limit, so a request whose rooms each hold at most 5 occupants
is still rejected with the per-room ValueError once the running total
passes 5: two rooms of three are rejected exactly like one room of
six. -/
theorem c6_room_occupancy_cumulative :
    (∀ b ∈ c6doc.paxes, b.paxes.length ≤ allowed_room_guest_count)
    ∧ main c6doc =
      .ok (.errorJson "Number of passengers in a room cannot exceed 5.")
    ∧ (∀ b ∈ room6Doc.paxes, allowed_room_guest_count < b.paxes.length)
    ∧ main room6Doc =
      .ok (.errorJson "Number of passengers in a room cannot exceed 5.") :=
  ⟨by decide, rfl, by decide, rfl⟩

/-- C7: generate_response emits one offer per destination in order, with
ids A#1, A#2, ... from position 1, each offer carrying the selling price
net * (1 + markup / 100) = 132.42 * 1.032 = 136.65744 and exchange rate
1; an empty destination list yields the empty response, not an error. -/
theorem c7_priced_offers :
    (∀ data : ParsedData,
      (generate_response data).length = data.avail_destinations.length)
    ∧ (∀ data : ParsedData, data.avail_destinations = [] →
        generate_response data = [])
    ∧ (∀ (data : ParsedData) (i : Nat) (item : ResponseItem),
        (generate_response data)[i]? = some item →
        item.id = "A#" ++ toString (i + 1)
        ∧ item.price.selling_price = calculate_selling_price price_net (32 / 10)
        ∧ item.price.selling_price = 13665744 / 100000
        ∧ item.price.exchange_rate = 1
        ∧ item.price.net = price_net
        ∧ item.price.currency = price_currency
        ∧ item.price.markup = 32 / 10
        ∧ item.market = data.market
        ∧ item.price.selling_currency = data.currency)
    ∧ calculate_selling_price price_net (32 / 10) = 13665744 / 100000 := by
  have hcalc : calculate_selling_price price_net (32 / 10) = 13665744 / 100000 := by
    unfold calculate_selling_price price_net
    norm_num
  refine ⟨?_, ?_, ?_, hcalc⟩
  · intro data
    simp [generate_response]
  · intro data h
    simp [generate_response, h]
  · intro data i item h
    unfold generate_response at h
    rw [List.getElem?_map] at h
    rcases hr : (List.range data.avail_destinations.length)[i]? with _ | j
    · rw [hr] at h
      exact Option.noConfusion h
    · rw [hr] at h
      obtain ⟨hlt, hj⟩ := List.getElem?_eq_some.mp hr
      rw [List.getElem_range] at hj
      subst hj
      rw [Option.map_some'] at h
      injection h with h
      subst h
      exact ⟨rfl, rfl, hcalc, rfl, rfl, rfl, rfl, rfl, rfl⟩

/-- C7 witness: the builder evaluated on the parse of the sample document
(3 destinations) and on an empty destination list. -/
theorem c7_priced_offers_witness :
    (generate_response sampleParsed).length = 3
    ∧ generate_response { sampleParsed with avail_destinations := [] } = []
    ∧ (responseItem sampleParsed 1).id = "A#1"
    ∧ (responseItem sampleParsed 1).price.selling_price = 13665744 / 100000 :=
  ⟨(c7_priced_offers.1 sampleParsed).trans rfl,
   c7_priced_offers.2.1 { sampleParsed with avail_destinations := [] } rfl,
   (c7_priced_offers.2.2.1 sampleParsed 0 _ rfl).1,
   (c7_priced_offers.2.2.1 sampleParsed 0 _ rfl).2.2.1⟩

/-- C8: when the language and every earlier extraction step pass, a
document lacking the Parameter, SearchType, StartDate, EndDate,
optionsQuota, Currency or Nationality node makes parse raise an
AttributeError (find returned None and the code called .get or .text on
it), not a ValidationError, and main propagates the exception instead of
returning the error JSON. -/
theorem c8_missing_nodes_attrerror (doc : AvailDoc) :
    (langOk doc → doc.parameter = none →
      parse doc = .error .attrError ∧ main doc = .error .attrError)
    ∧ (langOk doc → credOk doc → doc.searchType = none →
      parse doc = .error .attrError ∧ main doc = .error .attrError)
    ∧ (langOk doc → credOk doc → destOk doc → doc.startDate = none →
      parse doc = .error .attrError ∧ main doc = .error .attrError)
    ∧ (langOk doc → credOk doc → destOk doc →
      (∃ sd, doc.startDate = some sd) → doc.endDate = none →
      parse doc = .error .attrError ∧ main doc = .error .attrError)
    ∧ (langOk doc → credOk doc → destOk doc →
      (∃ sd, doc.startDate = some sd) → (∃ ed, doc.endDate = some ed) →
      doc.optionsQuota = none →
      parse doc = .error .attrError ∧ main doc = .error .attrError)
    ∧ (langOk doc → credOk doc → destOk doc →
      (∃ sd, doc.startDate = some sd) → (∃ ed, doc.endDate = some ed) →
      quotaOk doc → doc.currency = none →
      parse doc = .error .attrError ∧ main doc = .error .attrError)
    ∧ (langOk doc → credOk doc → destOk doc →
      (∃ sd, doc.startDate = some sd) → (∃ ed, doc.endDate = some ed) →
      quotaOk doc → (∃ ct, doc.currency = some ct) →
      doc.nationality = none →
      parse doc = .error .attrError ∧ main doc = .error .attrError) := by
  refine ⟨?_, ?_, ?_, ?_, ?_, ?_, ?_⟩
  · rintro ⟨lc, hL, hV⟩ hmiss
    have hp : parse doc = .error .attrError := by
      simp only [parse, hL, hV, hmiss]
    exact ⟨hp, by simp only [main, hp]⟩
  · rintro ⟨lc, hL, hV⟩ ⟨p, hP, hU⟩ hmiss
    have hp : parse doc = .error .attrError := by
      simp only [parse, hL, hV, hP, hU, hmiss]
    exact ⟨hp, by simp only [main, hp]⟩
  · rintro ⟨lc, hL, hV⟩ ⟨p, hP, hU⟩ ⟨st, hS, hD⟩ hmiss
    have hp : parse doc = .error .attrError := by
      simp only [parse, hL, hV, hP, hU, hS, hD, hmiss]
    exact ⟨hp, by simp only [main, hp]⟩
  · rintro ⟨lc, hL, hV⟩ ⟨p, hP, hU⟩ ⟨st, hS, hD⟩ ⟨sd, hSd⟩ hmiss
    have hp : parse doc = .error .attrError := by
      simp only [parse, hL, hV, hP, hU, hS, hD, hSd, hmiss]
    exact ⟨hp, by simp only [main, hp]⟩
  · rintro ⟨lc, hL, hV⟩ ⟨p, hP, hU⟩ ⟨st, hS, hD⟩ ⟨sd, hSd⟩ ⟨ed, hEd⟩ hmiss
    have hp : parse doc = .error .attrError := by
      simp only [parse, hL, hV, hP, hU, hS, hD, hSd, hEd, hmiss]
    exact ⟨hp, by simp only [main, hp]⟩
  · rintro ⟨lc, hL, hV⟩ ⟨p, hP, hU⟩ ⟨st, hS, hD⟩ ⟨sd, hSd⟩ ⟨ed, hEd⟩
      ⟨oq, hOq, hVq⟩ hmiss
    have hp : parse doc = .error .attrError := by
      simp only [parse, hL, hV, hP, hU, hS, hD, hSd, hEd, hOq, hVq, hmiss]
    exact ⟨hp, by simp only [main, hp]⟩
  · rintro ⟨lc, hL, hV⟩ ⟨p, hP, hU⟩ ⟨st, hS, hD⟩ ⟨sd, hSd⟩ ⟨ed, hEd⟩
      ⟨oq, hOq, hVq⟩ ⟨ct, hC⟩ hmiss
    have hp : parse doc = .error .attrError := by
      simp only [parse, hL, hV, hP, hU, hS, hD, hSd, hEd, hOq, hVq, hC, hmiss]
    exact ⟨hp, by simp only [main, hp]⟩

/-- C8 witness: the sample document with each of the seven nodes removed
in turn. -/
theorem c8_missing_nodes_attrerror_witness :
    parse { sampleDoc with parameter := none } = .error .attrError
    ∧ parse { sampleDoc with searchType := none } = .error .attrError
    ∧ parse { sampleDoc with startDate := none } = .error .attrError
    ∧ parse { sampleDoc with endDate := none } = .error .attrError
    ∧ parse { sampleDoc with optionsQuota := none } = .error .attrError
    ∧ parse { sampleDoc with currency := none } = .error .attrError
    ∧ parse { sampleDoc with nationality := none } = .error .attrError
    ∧ main { sampleDoc with nationality := none } = .error .attrError :=
  ⟨((c8_missing_nodes_attrerror { sampleDoc with parameter := none }).1
     ⟨some "en", rfl, rfl⟩ rfl).1,
   ((c8_missing_nodes_attrerror { sampleDoc with searchType := none }).2.1
     ⟨some "en", rfl, rfl⟩ ⟨sampleParameter, rfl, rfl⟩ rfl).1,
   ((c8_missing_nodes_attrerror { sampleDoc with startDate := none }).2.2.1
     ⟨some "en", rfl, rfl⟩ ⟨sampleParameter, rfl, rfl⟩
     ⟨some "Multiple", rfl, rfl⟩ rfl).1,
   ((c8_missing_nodes_attrerror { sampleDoc with endDate := none }).2.2.2.1
     ⟨some "en", rfl, rfl⟩ ⟨sampleParameter, rfl, rfl⟩
     ⟨some "Multiple", rfl, rfl⟩ ⟨sampleStart, rfl⟩ rfl).1,
   ((c8_missing_nodes_attrerror { sampleDoc with optionsQuota := none }).2.2.2.2.1
     ⟨some "en", rfl, rfl⟩ ⟨sampleParameter, rfl, rfl⟩
     ⟨some "Multiple", rfl, rfl⟩ ⟨sampleStart, rfl⟩ ⟨sampleEnd, rfl⟩ rfl).1,
   ((c8_missing_nodes_attrerror { sampleDoc with currency := none }).2.2.2.2.2.1
     ⟨some "en", rfl, rfl⟩ ⟨sampleParameter, rfl, rfl⟩
     ⟨some "Multiple", rfl, rfl⟩ ⟨sampleStart, rfl⟩ ⟨sampleEnd, rfl⟩
     ⟨some 20, rfl, rfl⟩ rfl).1,
   ((c8_missing_nodes_attrerror { sampleDoc with nationality := none }).2.2.2.2.2.2
     ⟨some "en", rfl, rfl⟩ ⟨sampleParameter, rfl, rfl⟩
     ⟨some "Multiple", rfl, rfl⟩ ⟨sampleStart, rfl⟩ ⟨sampleEnd, rfl⟩
     ⟨some 20, rfl, rfl⟩ ⟨some "USD", rfl⟩ rfl).1,
   ((c8_missing_nodes_attrerror { sampleDoc with nationality := none }).2.2.2.2.2.2
     ⟨some "en", rfl, rfl⟩ ⟨sampleParameter, rfl, rfl⟩
     ⟨some "Multiple", rfl, rfl⟩ ⟨sampleStart, rfl⟩ ⟨sampleEnd, rfl⟩
     ⟨some 20, rfl, rfl⟩ ⟨some "USD", rfl⟩ rfl).2⟩

/-- C9: an occupant of age at most 5 is classified Child and of age at
least 6 Adult, with the boundary at 5 to Child and 6 to Adult (a missing
age attribute defaults to 0, hence Child). -/
theorem c9_child_age_threshold :
    ∀ age : Nat,
      ((paxEntry { age := some age }).type = "Child" ↔ age ≤ 5)
      ∧ ((paxEntry { age := some age }).type = "Adult" ↔ 6 ≤ age)
      ∧ (paxEntry { age := some 5 }).type = "Child"
      ∧ (paxEntry { age := some 6 }).type = "Adult"
      ∧ (paxEntry { age := none }).type = "Child" := by
  intro age
  have htype : (paxEntry { age := some age }).type
      = if age ≤ max_child_age then "Child" else "Adult" := rfl
  by_cases h : age ≤ 5
  · rw [htype, if_pos (show age ≤ max_child_age from h)]
    exact ⟨⟨fun _ => h, fun _ => rfl⟩,
      ⟨fun hc => absurd hc (by decide), fun h6 => absurd h6 (by omega)⟩,
      rfl, rfl, rfl⟩
  · rw [htype, if_neg (show ¬ age ≤ max_child_age from h)]
    exact ⟨⟨fun hc => absurd hc (by decide), fun hle => absurd hle h⟩,
      ⟨fun _ => by omega, fun _ => rfl⟩, rfl, rfl, rfl⟩

/-- C10: the per-room child and adult counts are computed and discarded:
whether parse succeeds depends on the room shapes only, never on
occupant ages, so replacing the occupants of an accepted request by any
same-shaped rooms (in particular rooms of unaccompanied children) keeps
it accepted; concretely, a request whose single room holds two children
and no adult passes the whole validation. -/
theorem c10_accompaniment_unenforced :
    (∀ (doc : AvailDoc) (paxes2 : List PaxesBlock),
      sameShape doc.paxes paxes2 = true → ParseOk doc = true →
      ParseOk { doc with paxes := paxes2 } = true)
    ∧ (∃ data, parse childOnlyDoc = .ok data)
    ∧ childOnlyDoc.paxes ≠ []
    ∧ (∀ b ∈ childOnlyDoc.paxes, b.paxes ≠ [] ∧
        ∀ p ∈ b.paxes, (paxEntry p).type = "Child") := by
  refine ⟨?_, ⟨_, rfl⟩, by decide, by decide⟩
  intro doc paxes2 hshape hok
  rw [parse_isOk_iff] at hok ⊢
  obtain ⟨h1, h2, h3, h4, h5, h6, h7, h8, h9, h10⟩ := hok
  refine ⟨h1, h2, h3, h4, h5, h6, h7, h8, ?_, ?_⟩
  · have hl := sameShape_length _ _ hshape
    show validate_room_count paxes2.length = .ok ()
    rwa [← hl]
  · exact (roomLoop_ok_shape doc.paxes paxes2 [] [] hshape rfl).mp h10

/-- C10 witness: turning every occupant of the sample request into a
small child keeps parse succeeding. -/
theorem c10_accompaniment_unenforced_witness :
    ParseOk { sampleDoc with
      paxes := [ { paxes := [samplePax 1, samplePax 2] },
                 { paxes := [samplePax 3, samplePax 4] } ] } = true :=
  c10_accompaniment_unenforced.1 sampleDoc
    [ { paxes := [samplePax 1, samplePax 2] },
      { paxes := [samplePax 3, samplePax 4] } ] (by decide) rfl

end Assignment
